import Mathlib

/-!
Shallow embedding of the appointment slot generation and multi-factor scoring
engine of `src/schedule.py` (pawtime).

Modelling conventions:
* Times are whole minutes since an epoch falling on a Monday 00:00, so
  `hourOf t = t % 1440 / 60` matches `datetime.hour` and
  `weekdayOf t = t / 1440 % 7` matches `datetime.weekday()` (Monday = 0).
* Python floats (reliability fractions, health complexity, scores) are
  modelled as rationals.
* Python dicts (`schedule`, `staff_roster`, `expiring_inventory`) are
  association lists; `datetime.now()` is an explicit `now` parameter.
* The bounded `while` loops of the source become fuelled structural
  recursions.  `slotDayLoop` receives fuel 7: any 7 consecutive days contain
  exactly 5 weekdays, so the source loop `while days_checked < 5` always
  terminates within 7 iterations (`businessDayLoop_length_five` proves the
  fuel is exhausted only after `days_checked` reaches 5).  The inner loop
  from 09:00 stepping 15 minutes while `hour < 17` runs exactly 32 times, so
  fuel 33 covers it; likewise fuel 17 covers the 30-minute fallback loop.
-/

namespace Pawtime

/-- `datetime.hour` of a timestamp measured in whole minutes since a Monday-midnight epoch. -/
def hourOf (t : Nat) : Nat := t % 1440 / 60

/-- `datetime.weekday()`: Monday = 0 ... Sunday = 6. -/
def weekdayOf (t : Nat) : Nat := t / 1440 % 7

/-- `t.replace(hour=h, minute=m)` (seconds are below our resolution). -/
def replace_hour_minute (t : Nat) (h m : Nat) : Nat :=
  t / 1440 * 1440 + h * 60 + m

/-- `t.replace(hour=h)`, keeping the minute component. -/
def replace_hour (t : Nat) (h : Nat) : Nat :=
  t / 1440 * 1440 + h * 60 + t % 60

/-- Visit categories (`src/visit_type.py`). -/
inductive VisitType
  | CONSULT
  | WELLNESS
  | VACCINATION
  | SURGERY
  | GROOMING
  | EUTHANASIA
  | DENTAL
  | SPECIALTY
deriving DecidableEq

/-- A booked appointment occupying the schedule (`TimeSlot` dataclass). -/
structure TimeSlot where
  start_time : Nat
  end_time : Nat
  visit_type : VisitType
  staff_id : String
  species : String
deriving DecidableEq

/-- A staff member (`Staff` dataclass). -/
structure Staff where
  id : String
  capabilities : List VisitType
  lunch_start : Nat
deriving DecidableEq

/-- A customer (`Customer` dataclass); histories are fractions. -/
structure Customer where
  id : String
  late_history : ℚ
  no_show_history : ℚ

/-- A pet (`Pet` dataclass). -/
structure Pet where
  id : String
  species : String
  health_complexity : ℚ
  visit_history : List TimeSlot

/-- `Dict[datetime, TimeSlot]` as an association list keyed by start time. -/
abbrev Schedule := List (Nat × TimeSlot)

/-- `Dict[str, Staff]` as an association list keyed by staff id. -/
abbrev Roster := List (String × Staff)

/-- `Dict[VisitType, float]` as an association list. -/
abbrev Inventory := List (VisitType × ℚ)

/-- `TimeSlotDuration` enum. -/
inductive TimeSlotDuration
  | SHORT
  | STANDARD
  | EXTENDED
  | LONG
deriving DecidableEq

/-- The `.value` of a `TimeSlotDuration` member, in minutes. -/
def TimeSlotDuration.value : TimeSlotDuration → Nat
  | .SHORT => 15
  | .STANDARD => 30
  | .EXTENDED => 45
  | .LONG => 60

/-- Configuration for visit type duration and padding (`VisitDurationConfig`). -/
structure VisitDurationConfig where
  min_duration : TimeSlotDuration
  recommended_duration : TimeSlotDuration
  max_duration : TimeSlotDuration
  padding_before : Nat
  padding_after : Nat
  preferred_time_ranges : List (Nat × Nat)

/-- The generator object; its only state is the table built in `__init__`. -/
structure AdvancedTimeSlotGenerator where
  visit_configs : VisitType → VisitDurationConfig

/-- The `visit_configs` table built by `AdvancedTimeSlotGenerator.__init__`. -/
def advancedTimeSlotGenerator : AdvancedTimeSlotGenerator where
  visit_configs
    | .CONSULT => ⟨.STANDARD, .STANDARD, .EXTENDED, 5, 5, [(9, 17)]⟩
    | .WELLNESS => ⟨.STANDARD, .STANDARD, .EXTENDED, 5, 5, [(9, 17)]⟩
    | .VACCINATION => ⟨.SHORT, .STANDARD, .STANDARD, 5, 5, [(9, 17)]⟩
    | .SURGERY => ⟨.LONG, .LONG, .LONG, 15, 15, [(9, 14)]⟩
    | .GROOMING => ⟨.EXTENDED, .LONG, .LONG, 10, 10, [(9, 16)]⟩
    | .EUTHANASIA => ⟨.EXTENDED, .EXTENDED, .LONG, 15, 15, [(10, 16)]⟩
    | .DENTAL => ⟨.LONG, .LONG, .LONG, 15, 15, [(9, 14)]⟩
    | .SPECIALTY => ⟨.EXTENDED, .LONG, .LONG, 10, 10, [(9, 16)]⟩

/-- `_is_time_in_preferred_range`. -/
def AdvancedTimeSlotGenerator.is_time_in_preferred_range
    (g : AdvancedTimeSlotGenerator) (time : Nat) (visit_type : VisitType) : Bool :=
  (g.visit_configs visit_type).preferred_time_ranges.any
    (fun range => decide (range.1 ≤ hourOf time ∧ hourOf time ≤ range.2))

/-- `_check_staff_availability`: staff ids that can perform `visit_type`, are
not at lunch, and are not booked at any 15-minute step of
`[time, time + duration)` (the walked steps are `time + 15*k` for
`15*k < duration`, i.e. `k < (duration + 14) / 15`). -/
def AdvancedTimeSlotGenerator.check_staff_availability
    (_g : AdvancedTimeSlotGenerator) (time : Nat) (duration : Nat)
    (staff_roster : Roster) (schedule : Schedule) (visit_type : VisitType) :
    List String :=
  (staff_roster.filter (fun entry =>
    let staff := entry.2
    decide (visit_type ∈ staff.capabilities) &&
    !decide (staff.lunch_start ≤ time ∧ time < staff.lunch_start + 60) &&
    (List.range ((duration + 14) / 15)).all (fun k =>
      !(match schedule.lookup (time + 15 * k) with
        | some slot => decide (slot.staff_id = entry.1)
        | none => false)))).map Prod.fst

/-- The dict returned by `get_appointment_details`. -/
structure AppointmentDetails where
  start_time : Nat
  end_time : Nat
  duration : Nat
  padding_before : Nat
  padding_after : Nat
  is_preferred_time : Bool

/-- `get_appointment_details`. -/
def AdvancedTimeSlotGenerator.get_appointment_details
    (g : AdvancedTimeSlotGenerator) (time : Nat) (visit_type : VisitType)
    (pet_details : Pet) : AppointmentDetails :=
  let config := g.visit_configs visit_type
  let duration :=
    if pet_details.health_complexity > 7/10 then config.max_duration.value
    else if pet_details.health_complexity < 3/10 then config.min_duration.value
    else config.recommended_duration.value
  { start_time := time
    end_time := time + duration
    duration := duration
    padding_before := config.padding_before
    padding_after := config.padding_after
    is_preferred_time := g.is_time_in_preferred_range time visit_type }

/-- Factor 1 of `calculate_slot_score` (line 71):
`20 * (len(available_staff) / len(staff_roster))`. -/
def staff_availability_factor (available_staff : List String)
    (staff_roster : Roster) : ℚ :=
  20 * ((available_staff.length : ℚ) / (staff_roster.length : ℚ))

/-- The `neighboring_slots` of `calculate_slot_score` (lines 74-77): schedule
entries within 3600 seconds of the proposed time. -/
def neighboring_slots (schedule : Schedule) (proposed_time : Nat) :
    List TimeSlot :=
  (schedule.filter (fun entry =>
    decide (((entry.1 : ℤ) - (proposed_time : ℤ)).natAbs ≤ 60))).map Prod.snd

/-- Factor 2 of `calculate_slot_score` (lines 78-79). -/
def visit_type_alignment_factor (neighboring : List TimeSlot)
    (visit_type : VisitType) : ℚ :=
  let similar_type_count :=
    neighboring.countP (fun slot => decide (slot.visit_type = visit_type))
  15 * ((similar_type_count : ℚ) / ((max 1 neighboring.length : Nat) : ℚ))

/-- Factor 3 of `calculate_slot_score` (lines 82-83). -/
def species_alignment_factor (neighboring : List TimeSlot) (species : String) :
    ℚ :=
  let same_species_count :=
    neighboring.countP (fun slot => decide (slot.species = species))
  15 * ((same_species_count : ℚ) / ((max 1 neighboring.length : Nat) : ℚ))

/-- Factor 4 of `calculate_slot_score` (lines 85-89): the complexity/duration
adequacy check `duration >= duration`. -/
def complexity_factor (duration : Nat) : ℚ :=
  if duration ≥ duration then 10 else 5

/-- Factor 5 of `calculate_slot_score` (lines 91-93). -/
def preferred_time_factor (is_preferred_time : Bool) : ℚ :=
  if is_preferred_time then 10 else 0

/-- Factor 6 of `calculate_slot_score` (lines 95-97):
`10 * expiring_inventory[visit_type]` when the category is present. -/
def expiring_inventory_factor (expiring_inventory : Inventory)
    (visit_type : VisitType) : ℚ :=
  match expiring_inventory.find? (fun entry => decide (entry.1 = visit_type)) with
  | some entry => 10 * entry.2
  | none => 0

/-- Factor 7 of `calculate_slot_score` (lines 99-110). -/
def customer_reliability_factor (customer : Customer)
    (proposed_time : Nat) : ℚ :=
  let peak_hours := 10 ≤ hourOf proposed_time ∧ hourOf proposed_time ≤ 15
  if customer.late_history > 1/5 ∨ customer.no_show_history > 1/10 then
    if peak_hours then 10 else 5
  else
    if peak_hours then 5 else 10

/-- Factor 8 of `calculate_slot_score` (lines 112-120): `padding_score`
starts at 10, loses 2 per schedule entry within `padding_before` minutes and
2 per entry within `padding_after` minutes, and is floored at 0 once at the
end. -/
def padding_factor (schedule : Schedule) (proposed_time : Nat)
    (padding_before padding_after : Nat) : ℚ :=
  max 0 (schedule.foldl
    (fun padding_score entry =>
      let time_diff := ((entry.1 : ℤ) - (proposed_time : ℤ)).natAbs
      padding_score - (if time_diff < padding_before then 2 else 0)
        - (if time_diff < padding_after then 2 else 0))
    10)

/-- `calculate_slot_score` (lines 40-122). -/
def calculate_slot_score (proposed_time : Nat) (schedule : Schedule)
    (staff_roster : Roster) (visit_type : VisitType) (customer : Customer)
    (pet : Pet) (expiring_inventory : Inventory)
    (time_slot_generator : AdvancedTimeSlotGenerator) : ℚ :=
  let appointment_details :=
    time_slot_generator.get_appointment_details proposed_time visit_type pet
  let available_staff :=
    time_slot_generator.check_staff_availability proposed_time
      appointment_details.duration staff_roster schedule visit_type
  if available_staff = [] then 0 else
  let score1 := staff_availability_factor available_staff staff_roster
  let neighboring := neighboring_slots schedule proposed_time
  let score2 := visit_type_alignment_factor neighboring visit_type
  let score3 := species_alignment_factor neighboring pet.species
  let score4 := complexity_factor appointment_details.duration
  let score5 := preferred_time_factor appointment_details.is_preferred_time
  let score6 := expiring_inventory_factor expiring_inventory visit_type
  let score7 := customer_reliability_factor customer proposed_time
  let score8 := padding_factor schedule proposed_time
    appointment_details.padding_before appointment_details.padding_after
  score1 + score2 + score3 + score4 + score5 + score6 + score7 + score8

/-- The conflict walk of `generate_potential_slots` (lines 432-438): some
15-minute step of `[current_time, current_time + duration)` is already a key
of the schedule. -/
def has_conflict (schedule : Schedule) (duration : Nat) (current_time : Nat) :
    Bool :=
  (List.range ((duration + 14) / 15)).any
    (fun k => (schedule.lookup (current_time + 15 * k)).isSome)

/-- The inner `while current_time.hour < 17` loop of
`generate_potential_slots` (lines 419-443), stepping 15 minutes. -/
def AdvancedTimeSlotGenerator.slotSearchLoop (g : AdvancedTimeSlotGenerator)
    (schedule : Schedule) (staff_roster : Roster) (visit_type : VisitType)
    (duration : Nat) : Nat → Nat → List Nat
  | 0, _ => []
  | fuel + 1, current_time =>
    if hourOf current_time < 17 then
      (if g.is_time_in_preferred_range current_time visit_type &&
          !(g.check_staff_availability current_time
              (duration + (g.visit_configs visit_type).padding_before +
                (g.visit_configs visit_type).padding_after)
              staff_roster schedule visit_type).isEmpty then
        (if has_conflict schedule duration current_time then []
         else [current_time])
       else []) ++
      g.slotSearchLoop schedule staff_roster visit_type duration fuel
        (current_time + 15)
    else []

/-- One business day of `generate_potential_slots`: the inner loop started at
`current_date.replace(hour=9, minute=0)` (fuel 33 covers the 32 iterations
from 09:00 to 16:45 plus the failing guard at 17:00). -/
def AdvancedTimeSlotGenerator.daySlots (g : AdvancedTimeSlotGenerator)
    (schedule : Schedule) (staff_roster : Roster) (visit_type : VisitType)
    (duration : Nat) (current_date : Nat) : List Nat :=
  g.slotSearchLoop schedule staff_roster visit_type duration 33
    (replace_hour_minute current_date 9 0)

/-- The dates examined by the `while days_checked < 5` loop of
`generate_potential_slots` (lines 412-446): one entry per day processed in
the weekday branch, weekend days skipped without counting. -/
def businessDayLoop : Nat → Nat → Nat → List Nat
  | 0, _, _ => []
  | fuel + 1, days_checked, current_date =>
    if days_checked < 5 then
      if weekdayOf current_date < 5 then
        current_date ::
          businessDayLoop fuel (days_checked + 1) (current_date + 1440)
      else businessDayLoop fuel days_checked (current_date + 1440)
    else []

/-- The number of days the business-day loop records, as a function of the
starting weekday alone. -/
def businessDayCount : Nat → Nat → Nat → Nat
  | 0, _, _ => 0
  | fuel + 1, days_checked, w =>
    if days_checked < 5 then
      if w < 5 then 1 + businessDayCount fuel (days_checked + 1) ((w + 1) % 7)
      else businessDayCount fuel days_checked ((w + 1) % 7)
    else 0

/-- The `while days_checked < 5` loop of `generate_potential_slots`
(lines 412-446), accumulating the slots of each processed business day. -/
def AdvancedTimeSlotGenerator.slotDayLoop (g : AdvancedTimeSlotGenerator)
    (schedule : Schedule) (staff_roster : Roster) (visit_type : VisitType)
    (duration : Nat) : Nat → Nat → Nat → List Nat
  | 0, _, _ => []
  | fuel + 1, days_checked, current_date =>
    if days_checked < 5 then
      if weekdayOf current_date < 5 then
        g.daySlots schedule staff_roster visit_type duration current_date ++
          g.slotDayLoop schedule staff_roster visit_type duration fuel
            (days_checked + 1) (current_date + 1440)
      else
        g.slotDayLoop schedule staff_roster visit_type duration fuel
          days_checked (current_date + 1440)
    else []

/-- Default `start_date` resolution of `generate_potential_slots`
(lines 393-398): `now` rounded down to the hour; if its hour is 17 or later,
the next day at hour 9. -/
def resolve_start_date (now : Nat) (start_date : Option Nat) : Nat :=
  match start_date with
  | some d => d
  | none =>
    let d := now / 60 * 60
    if 17 ≤ hourOf d then replace_hour (d + 1440) 9 else d

/-- `generate_potential_slots` (lines 383-448). -/
def AdvancedTimeSlotGenerator.generate_potential_slots
    (g : AdvancedTimeSlotGenerator) (schedule : Schedule)
    (staff_roster : Roster) (visit_type : VisitType) (pet_details : Pet)
    (now : Nat) (start_date : Option Nat) : List Nat :=
  let start_date := resolve_start_date now start_date
  let config := g.visit_configs visit_type
  let base_duration := config.recommended_duration.value
  let duration :=
    if pet_details.health_complexity > 7/10 then config.max_duration.value
    else if pet_details.health_complexity < 3/10 then config.min_duration.value
    else base_duration
  g.slotDayLoop schedule staff_roster visit_type duration 7 0 start_date

/-- Descending-score order used by
`scored_times.sort(key=lambda x: x[1], reverse=True)`. -/
def scoreOrder (a b : Nat × ℚ) : Prop := b.2 ≤ a.2

instance : DecidableRel scoreOrder := fun a b =>
  inferInstanceAs (Decidable (b.2 ≤ a.2))

/-- The selector at the end of `get_three_best_appointments` (lines 192-194):
stable sort descending by score, keep the first three start times.  Python's
`list.sort` is stable (also under `reverse=True`), which insertion sort
models. -/
def top_three_times (scored_times : List (Nat × ℚ)) : List Nat :=
  ((scored_times.insertionSort scoreOrder).take 3).map Prod.fst

/-- The fallback slot enumeration of `get_three_best_appointments`
(lines 150-158): every 30 minutes while the hour is below 17, keeping times
that are not keys of the schedule. -/
def fallbackSlotLoop (schedule : Schedule) : Nat → Nat → List Nat
  | 0, _ => []
  | fuel + 1, current_date =>
    if hourOf current_date < 17 then
      (if (schedule.lookup current_date).isNone then [current_date] else []) ++
        fallbackSlotLoop schedule fuel (current_date + 30)
    else []

/-- `get_three_best_appointments` (lines 125-194). -/
def get_three_best_appointments (now : Nat) (schedule : Schedule)
    (staff_roster : Roster) (type_of_visit : VisitType)
    (customer_details : Customer) (pet_details : Pet)
    (expiring_inventory : Inventory)
    (potential_slots : Option (List Nat))
    (time_slot_generator : Option AdvancedTimeSlotGenerator) : List Nat :=
  let potential_slots :=
    match potential_slots with
    | some slots => slots
    | none => fallbackSlotLoop schedule 17 (replace_hour_minute now 9 0)
  let scored_times := potential_slots.map (fun time =>
    let score : ℚ :=
      match time_slot_generator with
      | some g =>
        let score := calculate_slot_score time schedule staff_roster
          type_of_visit customer_details pet_details expiring_inventory g
        let details := g.get_appointment_details time type_of_visit pet_details
        let score := score +
          (if details.duration =
              (g.visit_configs type_of_visit).recommended_duration.value
           then 5 else 0)
        if details.is_preferred_time then score else score - 10
      | none => 0
    (time, score))
  top_three_times scored_times

/-! Concrete sample data used by the witness theorems. -/

/-- A pet of medium health complexity. -/
def petA : Pet := ⟨"pet1", "dog", 1/2, []⟩

/-- A reliable customer. -/
def custA : Customer := ⟨"cust1", 1/10, 1/20⟩

/-- A staff member able to perform consults and vaccinations, with a lunch
break far outside the scheduling horizon. -/
def staffA : Staff := ⟨"s1", [.CONSULT, .VACCINATION], 100000⟩

/-- A one-member roster. -/
def rosterA : Roster := [("s1", staffA)]

/-- A staff member only able to perform surgery. -/
def staffB : Staff := ⟨"s2", [.SURGERY], 720⟩

/-- A roster with nobody able to perform a consult. -/
def rosterB : Roster := [("s2", staffB)]

/-- A booked slot. -/
def slotA : TimeSlot := ⟨104, 134, .CONSULT, "s1", "dog"⟩

/-! Theorems. -/

/-- C8: in `calculate_slot_score` the complexity/duration adequacy factor
contributes exactly 10 for every input; its condition compares the resolved
duration to itself, so the 5-point else-branch is unreachable. -/
theorem complexity_factor_always_ten (duration : Nat) :
    complexity_factor duration = 10 := by
  simp [complexity_factor]

/-- C1: whenever the availability check returns no staff, the score is
exactly 0 regardless of schedule, customer, pet and inventory — a hard gate,
not merely a zero contribution from the staff factor. -/
theorem calculate_slot_score_hard_gate (proposed_time : Nat)
    (schedule : Schedule) (staff_roster : Roster) (visit_type : VisitType)
    (customer : Customer) (pet : Pet) (expiring_inventory : Inventory)
    (time_slot_generator : AdvancedTimeSlotGenerator)
    (h : time_slot_generator.check_staff_availability proposed_time
      (time_slot_generator.get_appointment_details proposed_time visit_type
        pet).duration staff_roster schedule visit_type = []) :
    calculate_slot_score proposed_time schedule staff_roster visit_type
      customer pet expiring_inventory time_slot_generator = 0 := by
  simp [calculate_slot_score, h]

/-- Witness for C1 at a concrete input: a roster whose only member cannot
perform a consult. -/
theorem calculate_slot_score_hard_gate_witness :
    advancedTimeSlotGenerator.check_staff_availability 600
      (advancedTimeSlotGenerator.get_appointment_details 600 .CONSULT
        petA).duration rosterB [] .CONSULT = [] ∧
    calculate_slot_score 600 [] rosterB .CONSULT custA petA []
      advancedTimeSlotGenerator = 0 :=
  ⟨of_decide_eq_true (by with_unfolding_all rfl),
    calculate_slot_score_hard_gate 600 [] rosterB .CONSULT custA petA []
      advancedTimeSlotGenerator (of_decide_eq_true (by with_unfolding_all rfl))⟩

/-- The availability check over an empty roster returns no staff. -/
theorem check_staff_availability_nil (g : AdvancedTimeSlotGenerator)
    (time : Nat) (duration : Nat) (schedule : Schedule)
    (visit_type : VisitType) :
    g.check_staff_availability time duration [] schedule visit_type = [] := rfl

/-- With an empty roster, the inner search loop never yields a slot. -/
theorem slotSearchLoop_nil_roster (g : AdvancedTimeSlotGenerator)
    (schedule : Schedule) (visit_type : VisitType) (duration : Nat) :
    ∀ (fuel : Nat) (current_time : Nat),
      g.slotSearchLoop schedule [] visit_type duration fuel current_time = [] := by
  intro fuel
  induction fuel with
  | zero => intro t; rfl
  | succ n ih =>
    intro t
    simp [AdvancedTimeSlotGenerator.slotSearchLoop, check_staff_availability_nil,
      ih]

/-- With an empty roster, the day loop never yields a slot. -/
theorem slotDayLoop_nil_roster (g : AdvancedTimeSlotGenerator)
    (schedule : Schedule) (visit_type : VisitType) (duration : Nat) :
    ∀ (fuel days_checked : Nat) (current_date : Nat),
      g.slotDayLoop schedule [] visit_type duration fuel days_checked
        current_date = [] := by
  intro fuel
  induction fuel with
  | zero => intro dc d; rfl
  | succ n ih =>
    intro dc d
    simp [AdvancedTimeSlotGenerator.slotDayLoop,
      AdvancedTimeSlotGenerator.daySlots, slotSearchLoop_nil_roster, ih]

/-- C9: an empty staff roster is a normal outcome, not a failure:
`generate_potential_slots` returns the empty list and
`calculate_slot_score` returns 0 (the empty-available-staff gate returns
before the division by the roster size is reached). -/
theorem empty_roster_is_normal (g : AdvancedTimeSlotGenerator)
    (schedule : Schedule) (visit_type : VisitType) (customer : Customer)
    (pet_details : Pet) (expiring_inventory : Inventory) (now : Nat)
    (start_date : Option Nat) (proposed_time : Nat) :
    g.generate_potential_slots schedule [] visit_type pet_details now
      start_date = [] ∧
    calculate_slot_score proposed_time schedule [] visit_type customer
      pet_details expiring_inventory g = 0 := by
  constructor
  · simp [AdvancedTimeSlotGenerator.generate_potential_slots,
      slotDayLoop_nil_roster]
  · simp [calculate_slot_score, check_staff_availability_nil]

/-- The padding loop of `calculate_slot_score` subtracts 2 per schedule entry
inside each padding window, starting from the given accumulator. -/
theorem padding_factor_foldl (proposed_time : Nat) (pb pa : Nat) :
    ∀ (schedule : Schedule) (acc : ℚ),
      schedule.foldl
        (fun padding_score entry =>
          let time_diff := ((entry.1 : ℤ) - (proposed_time : ℤ)).natAbs
          padding_score - (if time_diff < pb then 2 else 0)
            - (if time_diff < pa then 2 else 0))
        acc
      = acc
        - 2 * (schedule.countP (fun entry =>
            decide (((entry.1 : ℤ) - (proposed_time : ℤ)).natAbs < pb)) : ℚ)
        - 2 * (schedule.countP (fun entry =>
            decide (((entry.1 : ℤ) - (proposed_time : ℤ)).natAbs < pa)) : ℚ) := by
  intro schedule
  induction schedule with
  | nil => intro acc; simp
  | cons e l ih =>
    intro acc
    simp only [List.foldl_cons, List.countP_cons, decide_eq_true_eq, ih]
    split_ifs <;> push_cast <;> ring

/-- C7: the padding factor starts at 10, subtracts 2 for every existing
schedule entry strictly inside the `padding_before` window and another 2 for
every entry strictly inside the `padding_after` window, floored at 0 once
overall; a single entry exactly `padding_before - 1` minutes away and not
within `padding_after` contributes 8 points. -/
theorem padding_factor_spec (schedule : Schedule) (proposed_time : Nat)
    (padding_before padding_after : Nat) :
    (padding_factor schedule proposed_time padding_before padding_after
      = max 0 (10
        - 2 * (schedule.countP (fun entry =>
            decide (((entry.1 : ℤ) - (proposed_time : ℤ)).natAbs
              < padding_before)) : ℚ)
        - 2 * (schedule.countP (fun entry =>
            decide (((entry.1 : ℤ) - (proposed_time : ℤ)).natAbs
              < padding_after)) : ℚ))) ∧
    (∀ (entry_time : Nat) (slot : TimeSlot),
      1 ≤ padding_before →
      ((entry_time : ℤ) - (proposed_time : ℤ)).natAbs = padding_before - 1 →
      ¬ ((entry_time : ℤ) - (proposed_time : ℤ)).natAbs < padding_after →
      padding_factor [(entry_time, slot)] proposed_time padding_before
        padding_after = 8) := by
  constructor
  · rw [padding_factor, padding_factor_foldl]
  · intro entry_time slot hpb hd hpa
    rw [padding_factor]
    simp only [List.foldl_cons, List.foldl_nil]
    rw [if_pos (by omega), if_neg (by rw [hd] at hpa ⊢; exact hpa)]
    norm_num

/-- Witness for C7: one entry 4 minutes away, `padding_before = 5`,
`padding_after = 3`. -/
theorem padding_factor_spec_witness :
    1 ≤ 5 ∧ padding_factor [(104, slotA)] 100 5 3 = 8 :=
  ⟨by decide,
    (padding_factor_spec [] 100 5 3).2 104 slotA (by decide) (by decide)
      (by decide)⟩

/-- C4: a scheduling pass is deterministic — two calls of
`generate_potential_slots` and of `calculate_slot_score` on identical inputs
(including the clock reading that models `datetime.now()`) produce identical
outputs. -/
theorem scheduling_pass_deterministic
    (g₁ g₂ : AdvancedTimeSlotGenerator) (schedule₁ schedule₂ : Schedule)
    (roster₁ roster₂ : Roster) (vt₁ vt₂ : VisitType)
    (customer₁ customer₂ : Customer) (pet₁ pet₂ : Pet)
    (inv₁ inv₂ : Inventory) (now₁ now₂ : Nat)
    (sd₁ sd₂ : Option Nat) (t₁ t₂ : Nat)
    (hg : g₁ = g₂) (hs : schedule₁ = schedule₂) (hr : roster₁ = roster₂)
    (hv : vt₁ = vt₂) (hc : customer₁ = customer₂) (hp : pet₁ = pet₂)
    (hi : inv₁ = inv₂) (hn : now₁ = now₂) (hsd : sd₁ = sd₂) (ht : t₁ = t₂) :
    g₁.generate_potential_slots schedule₁ roster₁ vt₁ pet₁ now₁ sd₁
      = g₂.generate_potential_slots schedule₂ roster₂ vt₂ pet₂ now₂ sd₂ ∧
    calculate_slot_score t₁ schedule₁ roster₁ vt₁ customer₁ pet₁ inv₁ g₁
      = calculate_slot_score t₂ schedule₂ roster₂ vt₂ customer₂ pet₂ inv₂ g₂ := by
  subst hg hs hr hv hc hp hi hn hsd ht
  exact ⟨rfl, rfl⟩

/-- Witness for C4: two textually separate calls on the same concrete
inputs. -/
theorem scheduling_pass_deterministic_witness :
    advancedTimeSlotGenerator.generate_potential_slots [] rosterA .CONSULT
        petA 0 (some 0)
      = advancedTimeSlotGenerator.generate_potential_slots [] rosterA .CONSULT
        petA 0 (some 0) ∧
    calculate_slot_score 600 [] rosterA .CONSULT custA petA []
        advancedTimeSlotGenerator
      = calculate_slot_score 600 [] rosterA .CONSULT custA petA []
        advancedTimeSlotGenerator :=
  scheduling_pass_deterministic _ _ _ _ _ _ _ _ _ _ _ _ _ _ _ _ _ _ _ _
    rfl rfl rfl rfl rfl rfl rfl rfl rfl rfl

/-- Inserting into a list moves an element before exactly the elements of
strictly smaller score, so the subsequence at any fixed score gains the new
element at the front iff its score matches. -/
theorem filter_score_orderedInsert (a : Nat × ℚ) (s : ℚ) :
    ∀ L : List (Nat × ℚ),
      (L.orderedInsert scoreOrder a).filter (fun x => decide (x.2 = s))
        = if a.2 = s then a :: L.filter (fun x => decide (x.2 = s))
          else L.filter (fun x => decide (x.2 = s)) := by
  intro L
  induction L with
  | nil => simp [List.orderedInsert, List.filter_cons, apply_ite]
  | cons b L ih =>
    rw [List.orderedInsert]
    by_cases hab : scoreOrder a b
    · rw [if_pos hab]
      by_cases has : a.2 = s <;> simp [List.filter_cons, has]
    · rw [if_neg hab]
      have hlt : a.2 < b.2 := lt_of_not_le hab
      by_cases hbs : b.2 = s
      · have has : ¬ a.2 = s := fun h => absurd (h.trans hbs.symm) (ne_of_lt hlt)
        simp [List.filter_cons, hbs, has, ih]
      · by_cases has : a.2 = s <;> simp [List.filter_cons, hbs, has, ih]

/-- The stable sort keeps the original relative order of equal scores: the
subsequence at any fixed score is unchanged. -/
theorem filter_score_insertionSort (s : ℚ) :
    ∀ l : List (Nat × ℚ),
      (l.insertionSort scoreOrder).filter (fun x => decide (x.2 = s))
        = l.filter (fun x => decide (x.2 = s)) := by
  intro l
  induction l with
  | nil => rfl
  | cons a l ih =>
    rw [List.insertionSort, filter_score_orderedInsert]
    by_cases has : a.2 = s <;> simp [List.filter_cons, has, ih]

/-- C5: the selector stable-sorts the scored candidates in descending score
order (ties keeping the original, chronological order), returns the first up
to three start times, hence fewer than three when fewer candidates exist and
none when there are none; on `[(t1,50),(t2,80),(t3,10),(t4,80)]` it returns
`[t2, t4, t1]`. -/
theorem top_three_times_spec :
    (∀ scored_times : List (Nat × ℚ),
      (scored_times.insertionSort scoreOrder).Sorted scoreOrder ∧
      (∀ s : ℚ,
        (scored_times.insertionSort scoreOrder).filter
            (fun x => decide (x.2 = s))
          = scored_times.filter (fun x => decide (x.2 = s))) ∧
      top_three_times scored_times
        = ((scored_times.insertionSort scoreOrder).take 3).map Prod.fst ∧
      (top_three_times scored_times).length = min 3 scored_times.length) ∧
    top_three_times [] = [] ∧
    (∀ t1 t2 t3 t4 : Nat,
      top_three_times [(t1, 50), (t2, 80), (t3, 10), (t4, 80)]
        = [t2, t4, t1]) := by
  refine ⟨fun scored_times => ⟨?_, fun s => filter_score_insertionSort s _,
    rfl, ?_⟩, rfl, fun t1 t2 t3 t4 => ?_⟩
  · haveI : IsTotal (Nat × ℚ) scoreOrder := ⟨fun a b => le_total b.2 a.2⟩
    haveI : IsTrans (Nat × ℚ) scoreOrder :=
      ⟨fun _ _ _ h h' => le_trans h' h⟩
    exact List.sorted_insertionSort scoreOrder scored_times
  · rw [top_three_times, List.length_map, List.length_take,
      (List.perm_insertionSort scoreOrder scored_times).length_eq]
  · norm_num [top_three_times, List.insertionSort, List.orderedInsert,
      scoreOrder]

/-- A quotient of two natural counts with numerator at most denominator lies
in `[0, 1]` (the degenerate denominator 0 forces numerator 0). -/
theorem nat_cast_div_mem_unit {a b : Nat} (h : a ≤ b) :
    0 ≤ (a : ℚ) / (b : ℚ) ∧ (a : ℚ) / (b : ℚ) ≤ 1 := by
  constructor
  · positivity
  · rcases Nat.eq_zero_or_pos b with hb | hb
    · subst hb
      interval_cases a
      norm_num
    · rw [div_le_one (by exact_mod_cast hb)]
      exact_mod_cast h

/-- The availability check returns at most as many staff as the roster has. -/
theorem check_staff_availability_length_le (g : AdvancedTimeSlotGenerator)
    (time : Nat) (duration : Nat) (staff_roster : Roster)
    (schedule : Schedule) (visit_type : VisitType) :
    (g.check_staff_availability time duration staff_roster schedule
      visit_type).length ≤ staff_roster.length := by
  rw [AdvancedTimeSlotGenerator.check_staff_availability, List.length_map]
  exact List.length_filter_le _ _

/-- Factor 1 stays within `[0, 20]` when no more staff are available than
rostered. -/
theorem staff_availability_factor_bounds (available_staff : List String)
    (staff_roster : Roster)
    (h : available_staff.length ≤ staff_roster.length) :
    0 ≤ staff_availability_factor available_staff staff_roster ∧
    staff_availability_factor available_staff staff_roster ≤ 20 := by
  obtain ⟨h0, h1⟩ := nat_cast_div_mem_unit h
  rw [staff_availability_factor]
  constructor <;> nlinarith

/-- Factor 2 stays within `[0, 15]`. -/
theorem visit_type_alignment_factor_bounds (neighboring : List TimeSlot)
    (visit_type : VisitType) :
    0 ≤ visit_type_alignment_factor neighboring visit_type ∧
    visit_type_alignment_factor neighboring visit_type ≤ 15 := by
  obtain ⟨h0, h1⟩ := nat_cast_div_mem_unit
    (le_trans (List.countP_le_length _) (le_max_right 1 neighboring.length))
  rw [visit_type_alignment_factor]
  constructor <;> nlinarith

/-- Factor 3 stays within `[0, 15]`. -/
theorem species_alignment_factor_bounds (neighboring : List TimeSlot)
    (species : String) :
    0 ≤ species_alignment_factor neighboring species ∧
    species_alignment_factor neighboring species ≤ 15 := by
  obtain ⟨h0, h1⟩ := nat_cast_div_mem_unit
    (le_trans (List.countP_le_length _) (le_max_right 1 neighboring.length))
  rw [species_alignment_factor]
  constructor <;> nlinarith

/-- Factor 6 stays within `[0, 10]` when all urgency fractions lie in
`[0, 1]`. -/
theorem expiring_inventory_factor_bounds (expiring_inventory : Inventory)
    (visit_type : VisitType)
    (hinv : ∀ entry ∈ expiring_inventory, 0 ≤ entry.2 ∧ entry.2 ≤ 1) :
    0 ≤ expiring_inventory_factor expiring_inventory visit_type ∧
    expiring_inventory_factor expiring_inventory visit_type ≤ 10 := by
  rw [expiring_inventory_factor]
  rcases hfind : expiring_inventory.find?
      (fun entry => decide (entry.1 = visit_type)) with _ | entry
  · simp only [hfind]
    norm_num
  · simp only [hfind]
    obtain ⟨h0, h1⟩ := hinv entry (List.mem_of_find?_eq_some hfind)
    constructor <;> nlinarith

/-- Factor 7 is always 5 or 10, hence within `[0, 10]`. -/
theorem customer_reliability_factor_bounds (customer : Customer)
    (proposed_time : Nat) :
    0 ≤ customer_reliability_factor customer proposed_time ∧
    customer_reliability_factor customer proposed_time ≤ 10 := by
  rw [customer_reliability_factor]
  split_ifs <;> norm_num

/-- Factor 8 stays within `[0, 10]`: the loop only subtracts, and the result
is floored at 0. -/
theorem padding_factor_bounds (schedule : Schedule) (proposed_time : Nat)
    (padding_before padding_after : Nat) :
    0 ≤ padding_factor schedule proposed_time padding_before padding_after ∧
    padding_factor schedule proposed_time padding_before padding_after ≤ 10 := by
  rw [padding_factor, padding_factor_foldl]
  refine ⟨le_max_left _ _, max_le (by norm_num) ?_⟩
  have hb : (0 : ℚ) ≤ (schedule.countP (fun entry =>
      decide (((entry.1 : ℤ) - (proposed_time : ℤ)).natAbs < padding_before)) : ℚ) := by
    positivity
  have ha : (0 : ℚ) ≤ (schedule.countP (fun entry =>
      decide (((entry.1 : ℤ) - (proposed_time : ℤ)).natAbs < padding_after)) : ℚ) := by
    positivity
  linarith

/-- C2: with customer reliability fractions and all inventory urgency
fractions in `[0, 1]`, the base eight-factor score (before the +5 bonus and
-10 penalty adjustment layer of `get_three_best_appointments`) lies in
`[0, 100]`. -/
theorem calculate_slot_score_bounded (proposed_time : Nat)
    (schedule : Schedule) (staff_roster : Roster) (visit_type : VisitType)
    (customer : Customer) (pet : Pet) (expiring_inventory : Inventory)
    (time_slot_generator : AdvancedTimeSlotGenerator)
    (hlate : 0 ≤ customer.late_history ∧ customer.late_history ≤ 1)
    (hnoshow : 0 ≤ customer.no_show_history ∧ customer.no_show_history ≤ 1)
    (hinv : ∀ entry ∈ expiring_inventory, 0 ≤ entry.2 ∧ entry.2 ≤ 1) :
    0 ≤ calculate_slot_score proposed_time schedule staff_roster visit_type
      customer pet expiring_inventory time_slot_generator ∧
    calculate_slot_score proposed_time schedule staff_roster visit_type
      customer pet expiring_inventory time_slot_generator ≤ 100 := by
  rw [calculate_slot_score]
  by_cases h : time_slot_generator.check_staff_availability proposed_time
      (time_slot_generator.get_appointment_details proposed_time visit_type
        pet).duration staff_roster schedule visit_type = []
  · simp only [h, if_pos]
    norm_num
  · simp only [h, if_neg, if_false]
    obtain ⟨h1a, h1b⟩ := staff_availability_factor_bounds _ staff_roster
      (check_staff_availability_length_le time_slot_generator proposed_time _
        staff_roster schedule visit_type)
    obtain ⟨h2a, h2b⟩ := visit_type_alignment_factor_bounds
      (neighboring_slots schedule proposed_time) visit_type
    obtain ⟨h3a, h3b⟩ := species_alignment_factor_bounds
      (neighboring_slots schedule proposed_time) pet.species
    have h4 : complexity_factor (time_slot_generator.get_appointment_details
        proposed_time visit_type pet).duration = 10 := by
      simp [complexity_factor]
    have h5 : 0 ≤ preferred_time_factor
        (time_slot_generator.get_appointment_details proposed_time visit_type
          pet).is_preferred_time ∧
        preferred_time_factor (time_slot_generator.get_appointment_details
          proposed_time visit_type pet).is_preferred_time ≤ 10 := by
      rw [preferred_time_factor]
      split_ifs <;> norm_num
    obtain ⟨h5a, h5b⟩ := h5
    obtain ⟨h6a, h6b⟩ := expiring_inventory_factor_bounds expiring_inventory
      visit_type hinv
    obtain ⟨h7a, h7b⟩ := customer_reliability_factor_bounds customer
      proposed_time
    obtain ⟨h8a, h8b⟩ := padding_factor_bounds schedule proposed_time
      (time_slot_generator.get_appointment_details proposed_time visit_type
        pet).padding_before
      (time_slot_generator.get_appointment_details proposed_time visit_type
        pet).padding_after
    constructor <;> linarith

/-- Witness for C2 at a concrete input with a nonempty roster and a
fractional inventory urgency. -/
theorem calculate_slot_score_bounded_witness :
    0 ≤ calculate_slot_score 600 [] rosterA .CONSULT custA petA
      [(.CONSULT, 4/5)] advancedTimeSlotGenerator ∧
    calculate_slot_score 600 [] rosterA .CONSULT custA petA
      [(.CONSULT, 4/5)] advancedTimeSlotGenerator ≤ 100 :=
  calculate_slot_score_bounded 600 [] rosterA .CONSULT custA petA
    [(.CONSULT, 4/5)] advancedTimeSlotGenerator
    (of_decide_eq_true (by with_unfolding_all rfl))
    (of_decide_eq_true (by with_unfolding_all rfl))
    (of_decide_eq_true (by with_unfolding_all rfl))

/-- Stepping one calendar day advances the weekday cyclically. -/
theorem weekdayOf_add_day (d : Nat) :
    weekdayOf (d + 1440) = (weekdayOf d + 1) % 7 := by
  rw [weekdayOf, weekdayOf]
  omega

/-- The length of the business-day enumeration only depends on the starting
weekday. -/
theorem businessDayLoop_length :
    ∀ (fuel days_checked : Nat) (d : Nat),
      (businessDayLoop fuel days_checked d).length
        = businessDayCount fuel days_checked (weekdayOf d) := by
  intro fuel
  induction fuel with
  | zero => intro dc d; rfl
  | succ n ih =>
    intro dc d
    rw [businessDayLoop, businessDayCount]
    split_ifs with h1 h2
    · rw [List.length_cons, ih, weekdayOf_add_day, Nat.add_comm]
    · rw [ih, weekdayOf_add_day]
    · rfl

/-- From any starting weekday, 7 days of fuel yield exactly 5 business
days. -/
theorem businessDayCount_full : ∀ w < 7, businessDayCount 7 0 w = 5 := by
  decide

/-- Any run of the day loop over 7 consecutive days meets exactly 5
weekdays, so the fuel-7 loop always processes exactly 5 business days: the
source loop `while days_checked < 5` exits through its guard, never through
fuel exhaustion. -/
theorem businessDayLoop_length_five (d : Nat) :
    (businessDayLoop 7 0 d).length = 5 := by
  rw [businessDayLoop_length]
  exact businessDayCount_full _ (Nat.mod_lt _ (by norm_num))

/-- Every date recorded by the business-day loop is a weekday. -/
theorem mem_businessDayLoop_weekday :
    ∀ (fuel days_checked : Nat) (d x : Nat),
      x ∈ businessDayLoop fuel days_checked d → weekdayOf x < 5 := by
  intro fuel
  induction fuel with
  | zero => intro dc d x hx; simp [businessDayLoop] at hx
  | succ n ih =>
    intro dc d x hx
    rw [businessDayLoop] at hx
    split_ifs at hx with h1 h2
    · rcases List.mem_cons.1 hx with rfl | hx
      · exact h2
      · exact ih _ _ _ hx
    · exact ih _ _ _ hx
    · simp at hx

/-- The day loop of `generate_potential_slots` is the concatenation of the
per-day slot lists over the enumerated business days. -/
theorem slotDayLoop_eq_flatMap (g : AdvancedTimeSlotGenerator)
    (schedule : Schedule) (staff_roster : Roster) (visit_type : VisitType)
    (duration : Nat) :
    ∀ (fuel days_checked : Nat) (d : Nat),
      g.slotDayLoop schedule staff_roster visit_type duration fuel
          days_checked d
        = (businessDayLoop fuel days_checked d).flatMap
            (g.daySlots schedule staff_roster visit_type duration) := by
  intro fuel
  induction fuel with
  | zero => intro dc d; rfl
  | succ n ih =>
    intro dc d
    rw [AdvancedTimeSlotGenerator.slotDayLoop, businessDayLoop]
    split_ifs with h1 h2
    · rw [List.flatMap_cons, ih]
    · rw [ih]
    · rfl

/-- Any slot produced by the inner search loop lies on the same day as the
loop's start, before 17:00, and passed the conflict walk. -/
theorem mem_slotSearchLoop (g : AdvancedTimeSlotGenerator)
    (schedule : Schedule) (staff_roster : Roster) (visit_type : VisitType)
    (duration : Nat) :
    ∀ (fuel : Nat) (current_time x : Nat),
      x ∈ g.slotSearchLoop schedule staff_roster visit_type duration fuel
          current_time →
      hourOf x < 17 ∧ current_time ≤ x ∧ x / 1440 = current_time / 1440 ∧
      has_conflict schedule duration x = false := by
  intro fuel
  induction fuel with
  | zero =>
    intro t x hx
    simp [AdvancedTimeSlotGenerator.slotSearchLoop] at hx
  | succ n ih =>
    intro t x hx
    rw [AdvancedTimeSlotGenerator.slotSearchLoop] at hx
    by_cases hguard : hourOf t < 17
    · rw [if_pos hguard] at hx
      have ht1020 : t % 1440 < 1020 := by
        rw [hourOf] at hguard
        omega
      rcases List.mem_append.1 hx with h | h
      · split_ifs at h with hcond hconf
        · simp at h
        · rcases List.mem_singleton.1 h with rfl
          exact ⟨hguard, le_refl _, rfl, Bool.eq_false_iff.2 hconf⟩
        · simp at h
      · obtain ⟨hh, hle, hday, hconf⟩ := ih (t + 15) x h
        refine ⟨hh, by omega, ?_, hconf⟩
        rw [hday]
        omega
    · rw [if_neg hguard] at hx
      simp at hx

/-- C3: every start time returned by `generate_potential_slots` has no
existing schedule entry at any 15-minute step of
`[time, time + resolved duration)`: the walked steps are `time + 15*k` for
`15*k < duration`. -/
theorem generate_potential_slots_conflict_free
    (g : AdvancedTimeSlotGenerator) (schedule : Schedule)
    (staff_roster : Roster) (visit_type : VisitType) (pet_details : Pet)
    (now : Nat) (start_date : Option Nat) (t : Nat)
    (ht : t ∈ g.generate_potential_slots schedule staff_roster visit_type
      pet_details now start_date) :
    ∀ k : Nat,
      15 * k < (g.get_appointment_details t visit_type pet_details).duration →
      schedule.lookup (t + 15 * k) = none := by
  intro k hk
  rw [AdvancedTimeSlotGenerator.generate_potential_slots,
    slotDayLoop_eq_flatMap] at ht
  obtain ⟨day, _, hmem⟩ := List.mem_flatMap.1 ht
  rw [AdvancedTimeSlotGenerator.daySlots] at hmem
  obtain ⟨_, _, _, hconf⟩ := mem_slotSearchLoop g schedule staff_roster
    visit_type _ 33 _ t hmem
  have hdur : (g.get_appointment_details t visit_type pet_details).duration
      = (if pet_details.health_complexity > 7/10
         then (g.visit_configs visit_type).max_duration.value
         else if pet_details.health_complexity < 3/10
         then (g.visit_configs visit_type).min_duration.value
         else (g.visit_configs visit_type).recommended_duration.value) := rfl
  rw [hdur] at hk
  rw [has_conflict] at hconf
  have hmemk : k ∈ List.range
      (((if pet_details.health_complexity > 7/10
         then (g.visit_configs visit_type).max_duration.value
         else if pet_details.health_complexity < 3/10
         then (g.visit_configs visit_type).min_duration.value
         else (g.visit_configs visit_type).recommended_duration.value)
        + 14) / 15) :=
    List.mem_range.2 (by omega)
  have := List.any_eq_false.1 hconf k hmemk
  exact Option.not_isSome_iff_eq_none.1 (by simpa using this)

/-- Witness for C3: the first generated slot of a Monday horizon with an
empty schedule, checked one step into its duration. -/
theorem generate_potential_slots_conflict_free_witness :
    ((540 : Nat) ∈ advancedTimeSlotGenerator.generate_potential_slots []
      rosterA .CONSULT petA 0 (some 0)) ∧
    15 * 1 < (advancedTimeSlotGenerator.get_appointment_details 540 .CONSULT
      petA).duration ∧
    ([] : Schedule).lookup (540 + 15 * 1) = none :=
  ⟨of_decide_eq_true (by with_unfolding_all rfl),
    of_decide_eq_true (by with_unfolding_all rfl),
    generate_potential_slots_conflict_free advancedTimeSlotGenerator []
      rosterA .CONSULT petA 0 (some 0) 540
      (of_decide_eq_true (by with_unfolding_all rfl)) 1
      (of_decide_eq_true (by with_unfolding_all rfl))⟩

/-- C6: no generated start time falls on a Saturday or Sunday, and the loop
enumerates exactly five weekday dates (weekend days are skipped without
counting toward the five): the output is the concatenation of the per-day
slots over those five dates. -/
theorem generate_potential_slots_weekdays_only
    (g : AdvancedTimeSlotGenerator) (schedule : Schedule)
    (staff_roster : Roster) (visit_type : VisitType) (pet_details : Pet)
    (now : Nat) (start_date : Option Nat) :
    (∀ t ∈ g.generate_potential_slots schedule staff_roster visit_type
        pet_details now start_date, weekdayOf t < 5) ∧
    (businessDayLoop 7 0 (resolve_start_date now start_date)).length = 5 ∧
    (∀ day ∈ businessDayLoop 7 0 (resolve_start_date now start_date),
      weekdayOf day < 5) ∧
    g.generate_potential_slots schedule staff_roster visit_type pet_details
        now start_date
      = (businessDayLoop 7 0 (resolve_start_date now start_date)).flatMap
          (g.daySlots schedule staff_roster visit_type
            (if pet_details.health_complexity > 7/10
             then (g.visit_configs visit_type).max_duration.value
             else if pet_details.health_complexity < 3/10
             then (g.visit_configs visit_type).min_duration.value
             else (g.visit_configs visit_type).recommended_duration.value)) := by
  have hflat : g.generate_potential_slots schedule staff_roster visit_type
      pet_details now start_date
      = (businessDayLoop 7 0 (resolve_start_date now start_date)).flatMap
          (g.daySlots schedule staff_roster visit_type
            (if pet_details.health_complexity > 7/10
             then (g.visit_configs visit_type).max_duration.value
             else if pet_details.health_complexity < 3/10
             then (g.visit_configs visit_type).min_duration.value
             else (g.visit_configs visit_type).recommended_duration.value)) := by
    rw [AdvancedTimeSlotGenerator.generate_potential_slots,
      slotDayLoop_eq_flatMap]
  refine ⟨?_, businessDayLoop_length_five _, mem_businessDayLoop_weekday 7 0 _,
    hflat⟩
  intro t ht
  rw [hflat] at ht
  obtain ⟨day, hday, hmem⟩ := List.mem_flatMap.1 ht
  rw [AdvancedTimeSlotGenerator.daySlots] at hmem
  obtain ⟨_, _, hsame, _⟩ := mem_slotSearchLoop g schedule staff_roster
    visit_type _ 33 _ t hmem
  have hwd := mem_businessDayLoop_weekday 7 0 _ day hday
  rw [weekdayOf] at hwd ⊢
  rw [replace_hour_minute] at hsame
  omega

/-- Inserting a score-`c` pair in front of a constant-score-`c` list keeps it
in place. -/
theorem orderedInsert_const_score (c : ℚ) (t : Nat) (l : List Nat) :
    (l.map (fun u => (u, c))).orderedInsert scoreOrder (t, c)
      = (t, c) :: l.map (fun u => (u, c)) := by
  cases l with
  | nil => rfl
  | cons b l =>
    rw [List.map_cons, List.orderedInsert,
      if_pos (show scoreOrder (t, c) (b, c) from le_refl c)]

/-- Stable-sorting a list whose scores are all equal returns it unchanged. -/
theorem insertionSort_const_score (c : ℚ) :
    ∀ l : List Nat,
      (l.map (fun u => (u, c))).insertionSort scoreOrder
        = l.map (fun u => (u, c)) := by
  intro l
  induction l with
  | nil => rfl
  | cons t l ih =>
    rw [List.map_cons, List.insertionSort, ih, orderedInsert_const_score]

/-- Closed form of the fallback enumeration: while the loop stays below
17:00 it visits `t + 30*k`, keeping the times that are not schedule keys. -/
theorem fallbackSlotLoop_closed (schedule : Schedule) :
    ∀ (fuel : Nat) (t : Nat), t % 1440 < 1050 → 1020 ≤ t % 1440 + 30 * fuel →
      fallbackSlotLoop schedule fuel t
        = ((List.range ((1049 - t % 1440) / 30)).map (fun k => t + 30 * k)).filter
            (fun u => (schedule.lookup u).isNone) := by
  intro fuel
  induction fuel with
  | zero =>
    intro t h1 h2
    have h0 : (1049 - t % 1440) / 30 = 0 := by omega
    rw [h0]
    rfl
  | succ n ih =>
    intro t h1 h2
    rw [fallbackSlotLoop]
    by_cases hg : hourOf t < 17
    · rw [if_pos hg]
      have ht : t % 1440 < 1020 := by
        rw [hourOf] at hg
        omega
      have hstep : (t + 30) % 1440 = t % 1440 + 30 := by omega
      have hm : (1049 - t % 1440) / 30
          = ((1049 - (t + 30) % 1440) / 30) + 1 := by omega
      rw [hm, List.range_succ_eq_map, List.map_cons, List.filter_cons,
        ih (t + 30) (by omega) (by omega)]
      have htail : (List.map Nat.succ
            (List.range ((1049 - (t + 30) % 1440) / 30))).map
              (fun k => t + 30 * k)
          = (List.range ((1049 - (t + 30) % 1440) / 30)).map
              (fun k => t + 30 + 30 * k) := by
        rw [List.map_map]
        apply List.map_congr_left
        intro k _
        simp only [Function.comp_apply, Nat.succ_eq_add_one]
        ring
      rw [htail]
      by_cases hl : (schedule.lookup t).isNone
      · simp only [Nat.mul_zero, Nat.add_zero, hl, if_pos, if_true]
        rfl
      · simp only [Nat.mul_zero, Nat.add_zero, hl, if_neg, if_false]
        simp [hl]
    · rw [if_neg hg]
      have hge : 1020 ≤ t % 1440 := by
        rw [hourOf] at hg
        omega
      have h0 : (1049 - t % 1440) / 30 = 0 := by omega
      rw [h0]
      rfl

/-- C10: without a generator, every supplied candidate is scored 0, so the
selector returns the first up to three candidates in their original order;
without a candidate list, the fallback enumerates 30-minute marks of the
current day from 09:00 up to (excluding) 17:00, omitting exactly the
schedule keys, and the call returns the first up to three of them. -/
theorem get_three_best_appointments_no_generator (now : Nat)
    (schedule : Schedule) (staff_roster : Roster) (type_of_visit : VisitType)
    (customer_details : Customer) (pet_details : Pet)
    (expiring_inventory : Inventory) :
    (∀ slots : List Nat,
      get_three_best_appointments now schedule staff_roster type_of_visit
        customer_details pet_details expiring_inventory (some slots) none
      = slots.take 3) ∧
    get_three_best_appointments now schedule staff_roster type_of_visit
        customer_details pet_details expiring_inventory none none
      = (fallbackSlotLoop schedule 17 (replace_hour_minute now 9 0)).take 3 ∧
    fallbackSlotLoop schedule 17 (replace_hour_minute now 9 0)
      = ((List.range 16).map
          (fun k => replace_hour_minute now 9 0 + 30 * k)).filter
          (fun u => (schedule.lookup u).isNone) := by
  have hscored : ∀ slots : List Nat,
      top_three_times (slots.map (fun time => (time, (0 : ℚ))))
        = slots.take 3 := by
    intro slots
    rw [top_three_times, insertionSort_const_score, ← List.map_take,
      List.map_map]
    have hid : (Prod.fst ∘ fun u : Nat => (u, (0 : ℚ))) = id := rfl
    rw [hid, List.map_id]
  refine ⟨fun slots => ?_, ?_, ?_⟩
  · rw [get_three_best_appointments]
    exact hscored slots
  · rw [get_three_best_appointments]
    exact hscored _
  · have hmod : replace_hour_minute now 9 0 % 1440 = 540 := by
      rw [replace_hour_minute]
      omega
    rw [fallbackSlotLoop_closed schedule 17 _ (by omega) (by omega), hmod]

/-- Witness for C6: the first generated slot of a Monday horizon is a
weekday, and the horizon enumerates 5 dates. -/
theorem generate_potential_slots_weekdays_only_witness :
    weekdayOf 540 < 5 ∧
    (businessDayLoop 7 0 (resolve_start_date 0 (some 0))).length = 5 :=
  ⟨(generate_potential_slots_weekdays_only advancedTimeSlotGenerator []
      rosterA .CONSULT petA 0 (some 0)).1 540
      (of_decide_eq_true (by with_unfolding_all rfl)),
    (generate_potential_slots_weekdays_only advancedTimeSlotGenerator []
      rosterA .CONSULT petA 0 (some 0)).2.1⟩

/-! Fuel-sufficiency lemmas: the fuelled loop models coincide with runs on
any larger fuel, so they faithfully describe the source's unbounded `while`
loops. -/

/-- Past 17:00 the inner search loop terminates at once, whatever the
fuel. -/
theorem slotSearchLoop_past_17 (g : AdvancedTimeSlotGenerator)
    (schedule : Schedule) (staff_roster : Roster) (visit_type : VisitType)
    (duration : Nat) (fuel : Nat) (t : Nat) (h : ¬ hourOf t < 17) :
    g.slotSearchLoop schedule staff_roster visit_type duration fuel t = [] := by
  cases fuel with
  | zero => rfl
  | succ n => rw [AdvancedTimeSlotGenerator.slotSearchLoop, if_neg h]

/-- Fuel beyond what reaches 17:00 does not change the inner search loop. -/
theorem slotSearchLoop_stable (g : AdvancedTimeSlotGenerator)
    (schedule : Schedule) (staff_roster : Roster) (visit_type : VisitType)
    (duration : Nat) :
    ∀ (fuel k : Nat) (t : Nat), 1020 ≤ t % 1440 + 15 * fuel →
      g.slotSearchLoop schedule staff_roster visit_type duration (fuel + k) t
        = g.slotSearchLoop schedule staff_roster visit_type duration fuel t := by
  intro fuel
  induction fuel with
  | zero =>
    intro k t h
    have hg : ¬ hourOf t < 17 := by
      rw [hourOf]
      omega
    rw [Nat.zero_add, slotSearchLoop_past_17 g schedule staff_roster
      visit_type duration k t hg, slotSearchLoop_past_17 g schedule
      staff_roster visit_type duration 0 t hg]
  | succ n ih =>
    intro k t h
    rw [show n + 1 + k = (n + k) + 1 by omega,
      AdvancedTimeSlotGenerator.slotSearchLoop,
      AdvancedTimeSlotGenerator.slotSearchLoop]
    by_cases hg : hourOf t < 17
    · rw [if_pos hg, if_pos hg]
      have ht : t % 1440 < 1020 := by
        rw [hourOf] at hg
        omega
      rw [ih k (t + 15) (by omega)]
    · rw [if_neg hg, if_neg hg]

/-- Fuel 33 is enough for a day's search loop started at 09:00. -/
theorem daySlots_fuel_sufficient (g : AdvancedTimeSlotGenerator)
    (schedule : Schedule) (staff_roster : Roster) (visit_type : VisitType)
    (duration : Nat) (k : Nat) (current_date : Nat) :
    g.slotSearchLoop schedule staff_roster visit_type duration (33 + k)
        (replace_hour_minute current_date 9 0)
      = g.daySlots schedule staff_roster visit_type duration current_date := by
  rw [AdvancedTimeSlotGenerator.daySlots]
  have hmod : replace_hour_minute current_date 9 0 % 1440 = 540 := by
    rw [replace_hour_minute]
    omega
  exact slotSearchLoop_stable g schedule staff_roster visit_type duration 33 k
    _ (by omega)

/-- Once 5 business days are processed, the day loop stops, whatever the
remaining fuel. -/
theorem businessDayLoop_done (fuel days_checked : Nat) (d : Nat)
    (h : 5 ≤ days_checked) : businessDayLoop fuel days_checked d = [] := by
  cases fuel with
  | zero => rfl
  | succ n => rw [businessDayLoop, if_neg (by omega)]

/-- When the fuel already yields the full quota of business days, more fuel
does not change the enumeration. -/
theorem businessDayLoop_stable :
    ∀ (fuel days_checked : Nat) (d : Nat),
      businessDayCount fuel days_checked (weekdayOf d) = 5 - days_checked →
      ∀ k : Nat, businessDayLoop (fuel + k) days_checked d
        = businessDayLoop fuel days_checked d := by
  intro fuel
  induction fuel with
  | zero =>
    intro dc d h k
    have hdc : 5 ≤ dc := by
      rw [businessDayCount] at h
      omega
    rw [Nat.zero_add, businessDayLoop_done k dc d hdc,
      businessDayLoop_done 0 dc d hdc]
  | succ n ih =>
    intro dc d h k
    rw [show n + 1 + k = (n + k) + 1 by omega, businessDayLoop,
      businessDayLoop]
    rw [businessDayCount] at h
    by_cases h1 : dc < 5
    · rw [if_pos h1] at h ⊢
      rw [if_pos h1]
      by_cases h2 : weekdayOf d < 5
      · rw [if_pos h2] at h ⊢
        rw [if_pos h2]
        have h' : businessDayCount n (dc + 1) (weekdayOf (d + 1440))
            = 5 - (dc + 1) := by
          rw [weekdayOf_add_day]
          omega
        rw [ih (dc + 1) (d + 1440) h' k]
      · rw [if_neg h2] at h ⊢
        rw [if_neg h2]
        have h' : businessDayCount n dc (weekdayOf (d + 1440)) = 5 - dc := by
          rw [weekdayOf_add_day]
          omega
        rw [ih dc (d + 1440) h' k]
    · rw [if_neg h1, if_neg h1]

/-- Fuel 7 is enough for the business-day loop of
`generate_potential_slots`: any larger fuel yields the same slots. -/
theorem slotDayLoop_fuel_sufficient (g : AdvancedTimeSlotGenerator)
    (schedule : Schedule) (staff_roster : Roster) (visit_type : VisitType)
    (duration : Nat) (k : Nat) (d : Nat) :
    g.slotDayLoop schedule staff_roster visit_type duration (7 + k) 0 d
      = g.slotDayLoop schedule staff_roster visit_type duration 7 0 d := by
  rw [slotDayLoop_eq_flatMap, slotDayLoop_eq_flatMap,
    businessDayLoop_stable 7 0 d
      (businessDayCount_full _ (Nat.mod_lt _ (by norm_num))) k]

/-- Fuel 17 is enough for the fallback enumeration of
`get_three_best_appointments`: any larger fuel yields the same marks. -/
theorem fallbackSlotLoop_fuel_sufficient (schedule : Schedule) (k : Nat)
    (now : Nat) :
    fallbackSlotLoop schedule (17 + k) (replace_hour_minute now 9 0)
      = fallbackSlotLoop schedule 17 (replace_hour_minute now 9 0) := by
  have hmod : replace_hour_minute now 9 0 % 1440 = 540 := by
    rw [replace_hour_minute]
    omega
  rw [fallbackSlotLoop_closed schedule (17 + k) _ (by omega) (by omega),
    fallbackSlotLoop_closed schedule 17 _ (by omega) (by omega)]

end Pawtime
